import Mathlib

/-
  Shallow embedding of the vsvg viewer (src/src/viewer.rs).

  The viewer owns a flattened document (layers of polyline paths), an
  optional page size, two boolean toggles (show_point, show_grid) and a
  per-layer visibility map.  Each frame, `update` first processes the menu
  bar (mutating the toggles and visibility map) and then renders the
  canvas, emitting an ordered list of draw primitives.

  Machine floats (f64 / f32) are embedded as rationals: the only arithmetic
  the viewer performs on coordinates is addition or subtraction of the
  constant 10, negation, and multiplication by 2, all exact.
-/

namespace VSVG

/-- Layer identifier (opaque integer id, `LayerID` in the source). -/
abbrev LayerID := Nat

/-- RGBA color, each channel 0-255 (`crate::types::Color`; converted to
`egui::Color32::from_rgba_unmultiplied(r, g, b, a)`, which preserves all
four channels). -/
structure Color where
  r : Nat
  g : Nat
  b : Nat
  a : Nat
deriving DecidableEq, Repr

/-- Embeds `egui::Color32::from_rgb(r, g, b)`: alpha is 255. -/
def Color.fromRgb (r g b : Nat) : Color := ⟨r, g, b, 255⟩

/-- Embeds `egui::Color32::WHITE`. -/
def Color.white : Color := ⟨255, 255, 255, 255⟩

/-- A flattened path: an ordered list of 2D points, a color and a stroke
width (`Path` of the flattened document). -/
structure Path where
  data : List (ℚ × ℚ)
  color : Color
  stroke_width : ℚ
deriving DecidableEq, Repr

/-- A layer: an ordered sequence of paths. -/
structure Layer where
  paths : List Path
deriving DecidableEq, Repr

/-- The flattened document: an ordered-by-insertion mapping from layer id
to layer, embedded as an association list (keys unique, iteration order
stable). -/
structure FlattenedDocument where
  layers : List (LayerID × Layer)
deriving DecidableEq, Repr

/-- Page size in document units (`PageSize { w, h }`). -/
structure PageSize where
  w : ℚ
  h : ℚ
deriving DecidableEq, Repr

/-- The viewer state (struct `Viewer` in viewer.rs).  The
`layer_visibility` HashMap is embedded as an association list; only
lookup, membership and insertion are ever used on it. -/
structure Viewer where
  document : FlattenedDocument
  page_size : Option PageSize
  show_point : Bool
  show_grid : Bool
  layer_visibility : List (LayerID × Bool)
deriving DecidableEq, Repr

/-- Embeds `Viewer::new` (the `_cc : &eframe::CreationContext` argument
carries no data used by the constructor and is omitted). -/
def Viewer.new (document : FlattenedDocument) (page_size : Option PageSize) : Viewer :=
  { document := document
    page_size := page_size
    show_point := false
    show_grid := false
    layer_visibility := [] }

/-- Embeds `const SHADOW_OFFSET: f64 = 10.;`. -/
def SHADOW_OFFSET : ℚ := 10

/-- A draw primitive emitted into the plot surface: a call to
`plot_ui.polygon`, `plot_ui.line` or `plot_ui.points`.  Polygons carry the
stroke/fill color and the fill alpha; lines carry color and stroke width;
points carry color and marker radius. -/
inductive Primitive where
  | polygon (pts : List (ℚ × ℚ)) (color : Color) (fill_alpha : ℚ)
  | line (pts : List (ℚ × ℚ)) (color : Color) (width : ℚ)
  | points (pts : List (ℚ × ℚ)) (color : Color) (radius : ℚ)
deriving DecidableEq, Repr

/-- True for the page-frame polygon primitives. -/
def Primitive.isPolygon : Primitive → Bool
  | .polygon _ _ _ => true
  | _ => false

/-- True for path polyline primitives. -/
def Primitive.isLine : Primitive → Bool
  | .line _ _ _ => true
  | _ => false

/-- True for point-marker primitives. -/
def Primitive.isPoints : Primitive → Bool
  | .points _ _ _ => true
  | _ => false

/-- Embeds the `if let Some(page_size) = self.page_size` block of
`Viewer::update`: shadow polygon (corners offset by (+SHADOW_OFFSET,
-SHADOW_OFFSET), gray 180, fill alpha 1), then the white background
polygon, then the gray-128 frame polygon with fill alpha 0. -/
def pagePrimitives : Option PageSize → List Primitive
  | none => []
  | some page_size =>
    let page_frame : List (ℚ × ℚ) :=
      [(0, 0), (page_size.w, 0), (page_size.w, -page_size.h), (0, -page_size.h)]
    [ Primitive.polygon
        (page_frame.map (fun p => (p.1 + SHADOW_OFFSET, p.2 - SHADOW_OFFSET)))
        (Color.fromRgb 180 180 180) 1
    , Primitive.polygon page_frame Color.white 1
    , Primitive.polygon page_frame (Color.fromRgb 128 128 128) 0 ]

/-- Lookup in the visibility association list (embeds
`HashMap::get(&i)`). -/
def visLookup : List (LayerID × Bool) → LayerID → Option Bool
  | [], _ => none
  | p :: rest, lid => if p.1 = lid then some p.2 else visLookup rest lid

/-- Embeds `self.layer_visibility.get(&i).unwrap_or(&true)`: a layer with
no entry defaults to visible. -/
def layerVisible (vis : List (LayerID × Bool)) (lid : LayerID) : Bool :=
  (visLookup vis lid).getD true

/-- Primitives emitted for one path: the polyline (color, width =
stroke_width), then, when `show_point` is set, one points primitive
carrying a marker at every point of `path.data` with radius
`stroke_width * 2`. -/
def pathPrims (sp : Bool) (path : Path) : List Primitive :=
  Primitive.line path.data path.color path.stroke_width ::
    (if sp then [Primitive.points path.data path.color (path.stroke_width * 2)] else [])

/-- Embeds the inner `for path in layer.paths.iter()` loop. -/
def pathsPrims (sp : Bool) : List Path → List Primitive
  | [] => []
  | path :: rest => pathPrims sp path ++ pathsPrims sp rest

/-- Embeds the outer `for (i, layer) in self.document.layers.iter()` loop:
a layer whose visibility entry is `false` is skipped (`continue`). -/
def layersPrims (sp : Bool) (vis : List (LayerID × Bool)) :
    List (LayerID × Layer) → List Primitive
  | [] => []
  | pair :: rest =>
    (if layerVisible vis pair.1 then pathsPrims sp pair.2.paths else []) ++
      layersPrims sp vis rest

/-- The document part of a frame's canvas primitives. -/
def docPrimitives (v : Viewer) : List Primitive :=
  layersPrims v.show_point v.layer_visibility v.document.layers

/-- State of one grid spacer of the plot: either suppressed by the closure
`|_| vec![]` installed when `show_grid` is false, or left at the host's
default. -/
inductive GridSpacer where
  | suppress
  | hostDefault
deriving DecidableEq, Repr

/-- Input handed by egui to a grid spacer (bounds and base step size). -/
structure GridInput where
  bounds : ℚ × ℚ
  base_step_size : ℚ
deriving DecidableEq, Repr

/-- One grid line produced by a spacer (position and step size). -/
structure GridMark where
  value : ℚ
  step_size : ℚ
deriving DecidableEq, Repr

/-- Semantics of a grid spacer: the grid marks produced for a given host
default and spacer input.  `suppress` is the installed closure
`|_| vec![]`; `hostDefault` defers to the host. -/
def gridMarks (gs : GridSpacer) (host : GridInput → List GridMark) (input : GridInput) :
    List GridMark :=
  match gs with
  | .suppress => []
  | .hostDefault => host input

/-- The canvas output of one frame: the two grid spacers of the plot and
the ordered list of draw primitives. -/
structure CanvasOutput where
  grid_x : GridSpacer
  grid_y : GridSpacer
  primitives : List Primitive
deriving DecidableEq, Repr

/-- Embeds the `egui::CentralPanel` / `plot.show` part of
`Viewer::update`: the plot starts with the host-default grid spacers,
which are replaced by empty-vec closures when `show_grid` is false; then
the page frame and the per-layer primitives are emitted in order. -/
def renderCanvas (v : Viewer) : CanvasOutput :=
  let gx := GridSpacer.hostDefault
  let gy := GridSpacer.hostDefault
  let g := if !v.show_grid then (GridSpacer.suppress, GridSpacer.suppress) else (gx, gy)
  { grid_x := g.1
    grid_y := g.2
    primitives := pagePrimitives v.page_size ++ docPrimitives v }

/-- UI interaction during one frame's menu pass: whether Quit was clicked,
whether the two View checkboxes were clicked (a click toggles the bound
boolean), whether the Layer menu was open (its closure, which inserts
default-true visibility entries, runs only then), and which layer
checkboxes were clicked. -/
structure UIInput where
  quit_clicked : Bool
  show_point_clicked : Bool
  show_grid_clicked : Bool
  layer_menu_open : Bool
  layer_clicked : List LayerID
deriving DecidableEq, Repr

/-- Insertion into the visibility association list: replaces the value of
an existing key, otherwise appends (embeds `HashMap::entry` mutation). -/
def visInsert : List (LayerID × Bool) → LayerID → Bool → List (LayerID × Bool)
  | [], lid, b => [(lid, b)]
  | p :: rest, lid, b =>
    if p.1 = lid then (lid, b) :: rest else p :: visInsert rest lid b

/-- One iteration of the Layer-menu loop body: embeds
`let visibility = self.layer_visibility.entry(*lid).or_insert(true);`
followed by `ui.checkbox(visibility, ...)` — the current value (defaulting
to `true` on first encounter) is toggled when that checkbox was clicked,
and the entry is (re)stored. -/
def layerMenuStep (clicked : List LayerID) (vis : List (LayerID × Bool)) (lid : LayerID) :
    List (LayerID × Bool) :=
  let cur := (visLookup vis lid).getD true
  visInsert vis lid (if lid ∈ clicked then !cur else cur)

/-- Embeds `for lid in self.document.layers.keys()` of the Layer menu. -/
def layerMenuLoop (clicked : List LayerID) :
    List (LayerID × Layer) → List (LayerID × Bool) → List (LayerID × Bool)
  | [], vis => vis
  | pair :: rest, vis => layerMenuLoop clicked rest (layerMenuStep clicked vis pair.1)

/-- Embeds the menu-bar pass of `Viewer::update`: the View checkboxes
toggle `show_point` / `show_grid` when clicked, and the Layer menu, when
open, walks the document's layer keys inserting/toggling visibility
entries.  The File menu's Quit button only signals the host. -/
def menuUpdate (input : UIInput) (v : Viewer) : Viewer :=
  { v with
    show_point := if input.show_point_clicked then !v.show_point else v.show_point
    show_grid := if input.show_grid_clicked then !v.show_grid else v.show_grid
    layer_visibility :=
      if input.layer_menu_open then
        layerMenuLoop input.layer_clicked v.document.layers v.layer_visibility
      else v.layer_visibility }

/-- Embeds `Viewer::update` for one frame: the menu pass mutates the
state, then the canvas is rendered from the mutated state.  The returned
Bool is the close request forwarded to the host by File/Quit
(`frame.close()`). -/
def update (input : UIInput) (v : Viewer) : Viewer × Bool × CanvasOutput :=
  let v' := menuUpdate input v
  (v', input.quit_clicked, renderCanvas v')

/-- The paths of the layers that are drawn (visibility entry not `false`),
in draw order. -/
def visiblePaths (vis : List (LayerID × Bool)) : List (LayerID × Layer) → List Path
  | [] => []
  | pair :: rest =>
    (if layerVisible vis pair.1 then pair.2.paths else []) ++ visiblePaths vis rest

/-- The marker primitive emitted for a path when `show_point` is set. -/
def markerOf (path : Path) : Primitive :=
  Primitive.points path.data path.color (path.stroke_width * 2)

/-- The polyline primitive emitted for a path. -/
def lineOf (path : Path) : Primitive :=
  Primitive.line path.data path.color path.stroke_width

/-- Total number of markers carried by the points primitives of a list. -/
def markerCount : List Primitive → Nat
  | [] => 0
  | Primitive.points pts _ _ :: rest => pts.length + markerCount rest
  | Primitive.polygon _ _ _ :: rest => markerCount rest
  | Primitive.line _ _ _ :: rest => markerCount rest

/-- Total number of points across a list of paths. -/
def totalPoints : List Path → Nat
  | [] => 0
  | path :: rest => path.data.length + totalPoints rest

theorem renderCanvas_primitives (v : Viewer) :
    (renderCanvas v).primitives = pagePrimitives v.page_size ++ docPrimitives v := by
  cases h : v.show_grid <;> simp [renderCanvas, h]

theorem renderCanvas_grid_x (v : Viewer) :
    (renderCanvas v).grid_x =
      if v.show_grid then GridSpacer.hostDefault else GridSpacer.suppress := by
  cases h : v.show_grid <;> simp [renderCanvas, h]

theorem renderCanvas_grid_y (v : Viewer) :
    (renderCanvas v).grid_y =
      if v.show_grid then GridSpacer.hostDefault else GridSpacer.suppress := by
  cases h : v.show_grid <;> simp [renderCanvas, h]

theorem pathsPrims_filter_line (sp : Bool) (l : List Path) :
    (pathsPrims sp l).filter Primitive.isLine = l.map lineOf := by
  induction l with
  | nil => rfl
  | cons path rest ih =>
    cases sp <;>
      simp [pathsPrims, pathPrims, List.filter_append, Primitive.isLine, lineOf, ih]

theorem pathsPrims_true_filter_points (l : List Path) :
    (pathsPrims true l).filter Primitive.isPoints = l.map markerOf := by
  induction l with
  | nil => rfl
  | cons path rest ih =>
    simp [pathsPrims, pathPrims, List.filter_append, Primitive.isPoints, markerOf, ih]

theorem pathsPrims_false_filter_points (l : List Path) :
    (pathsPrims false l).filter Primitive.isPoints = [] := by
  induction l with
  | nil => rfl
  | cons path rest ih =>
    simp [pathsPrims, pathPrims, List.filter_append, Primitive.isPoints, ih]

theorem pathsPrims_filter_polygon (sp : Bool) (l : List Path) :
    (pathsPrims sp l).filter Primitive.isPolygon = [] := by
  induction l with
  | nil => rfl
  | cons path rest ih =>
    cases sp <;>
      simp [pathsPrims, pathPrims, List.filter_append, Primitive.isPolygon, ih]

theorem layersPrims_filter_line (sp : Bool) (vis : List (LayerID × Bool))
    (l : List (LayerID × Layer)) :
    (layersPrims sp vis l).filter Primitive.isLine = (visiblePaths vis l).map lineOf := by
  induction l with
  | nil => rfl
  | cons pair rest ih =>
    cases h : layerVisible vis pair.1 <;>
      simp [layersPrims, visiblePaths, h, List.filter_append, pathsPrims_filter_line, ih]

theorem layersPrims_true_filter_points (vis : List (LayerID × Bool))
    (l : List (LayerID × Layer)) :
    (layersPrims true vis l).filter Primitive.isPoints = (visiblePaths vis l).map markerOf := by
  induction l with
  | nil => rfl
  | cons pair rest ih =>
    cases h : layerVisible vis pair.1 <;>
      simp [layersPrims, visiblePaths, h, List.filter_append, pathsPrims_true_filter_points, ih]

theorem layersPrims_false_filter_points (vis : List (LayerID × Bool))
    (l : List (LayerID × Layer)) :
    (layersPrims false vis l).filter Primitive.isPoints = [] := by
  induction l with
  | nil => rfl
  | cons pair rest ih =>
    cases h : layerVisible vis pair.1 <;>
      simp [layersPrims, h, List.filter_append, pathsPrims_false_filter_points, ih]

theorem layersPrims_filter_polygon (sp : Bool) (vis : List (LayerID × Bool))
    (l : List (LayerID × Layer)) :
    (layersPrims sp vis l).filter Primitive.isPolygon = [] := by
  induction l with
  | nil => rfl
  | cons pair rest ih =>
    cases h : layerVisible vis pair.1 <;>
      simp [layersPrims, h, List.filter_append, pathsPrims_filter_polygon, ih]

theorem layersPrims_eq_filter (sp : Bool) (vis : List (LayerID × Bool))
    (l : List (LayerID × Layer)) :
    layersPrims sp vis l =
      layersPrims sp vis (l.filter (fun pair => layerVisible vis pair.1)) := by
  induction l with
  | nil => rfl
  | cons pair rest ih =>
    cases h : layerVisible vis pair.1 <;>
      simp [layersPrims, List.filter_cons, h, ih]

theorem pagePrimitives_filter_polygon (ps : Option PageSize) :
    (pagePrimitives ps).filter Primitive.isPolygon = pagePrimitives ps := by
  cases ps <;> simp [pagePrimitives, Primitive.isPolygon]

theorem pagePrimitives_filter_line (ps : Option PageSize) :
    (pagePrimitives ps).filter Primitive.isLine = [] := by
  cases ps <;> simp [pagePrimitives, Primitive.isLine]

theorem pagePrimitives_filter_points (ps : Option PageSize) :
    (pagePrimitives ps).filter Primitive.isPoints = [] := by
  cases ps <;> simp [pagePrimitives, Primitive.isPoints]

theorem markerCount_append (l₁ l₂ : List Primitive) :
    markerCount (l₁ ++ l₂) = markerCount l₁ + markerCount l₂ := by
  induction l₁ with
  | nil => simp [markerCount]
  | cons p rest ih =>
    cases p <;> simp [markerCount, ih]
    omega

theorem markerCount_pathsPrims_true (l : List Path) :
    markerCount (pathsPrims true l) = totalPoints l := by
  induction l with
  | nil => rfl
  | cons path rest ih =>
    simp [pathsPrims, pathPrims, markerCount_append, markerCount, totalPoints, ih]

theorem totalPoints_append (l₁ l₂ : List Path) :
    totalPoints (l₁ ++ l₂) = totalPoints l₁ + totalPoints l₂ := by
  induction l₁ with
  | nil => simp [totalPoints]
  | cons path rest ih => simp [totalPoints, ih]; omega

theorem markerCount_layersPrims_true (vis : List (LayerID × Bool))
    (l : List (LayerID × Layer)) :
    markerCount (layersPrims true vis l) = totalPoints (visiblePaths vis l) := by
  induction l with
  | nil => rfl
  | cons pair rest ih =>
    cases h : layerVisible vis pair.1 <;>
      simp [layersPrims, visiblePaths, h, markerCount_append,
        markerCount_pathsPrims_true, totalPoints_append, ih]

theorem markerCount_pagePrimitives (ps : Option PageSize) :
    markerCount (pagePrimitives ps) = 0 := by
  cases ps <;> simp [pagePrimitives, markerCount]

/-- The keys of the visibility map. -/
def visKeys (vis : List (LayerID × Bool)) : List LayerID := vis.map Prod.fst

/-- The layer ids of the document, in iteration order. -/
def docIDs (d : FlattenedDocument) : List LayerID := d.layers.map Prod.fst

theorem visKeys_visInsert (vis : List (LayerID × Bool)) (lid : LayerID) (b : Bool)
    (k : LayerID) :
    k ∈ visKeys (visInsert vis lid b) ↔ k ∈ visKeys vis ∨ k = lid := by
  induction vis with
  | nil => simp [visInsert, visKeys]
  | cons p rest ih =>
    by_cases h : p.1 = lid
    · subst h
      simp [visInsert, visKeys]
      tauto
    · simp [visInsert, h, visKeys] at ih ⊢
      tauto

theorem visKeys_layerMenuStep (clicked : List LayerID) (vis : List (LayerID × Bool))
    (lid : LayerID) (k : LayerID) :
    k ∈ visKeys (layerMenuStep clicked vis lid) ↔ k ∈ visKeys vis ∨ k = lid := by
  unfold layerMenuStep
  exact visKeys_visInsert vis lid _ k

theorem visKeys_layerMenuLoop (clicked : List LayerID) (layers : List (LayerID × Layer)) :
    ∀ (vis : List (LayerID × Bool)) (k : LayerID),
      k ∈ visKeys (layerMenuLoop clicked layers vis) ↔
        k ∈ visKeys vis ∨ k ∈ layers.map Prod.fst := by
  induction layers with
  | nil => intro vis k; simp [layerMenuLoop]
  | cons pair rest ih =>
    intro vis k
    rw [layerMenuLoop, ih]
    rw [visKeys_layerMenuStep]
    simp
    tauto

theorem visLookup_visInsert_self (vis : List (LayerID × Bool)) (lid : LayerID) (b : Bool) :
    visLookup (visInsert vis lid b) lid = some b := by
  induction vis with
  | nil => simp [visInsert, visLookup]
  | cons p rest ih =>
    by_cases h : p.1 = lid
    · simp [visInsert, h, visLookup]
    · simp [visInsert, h, visLookup, ih]

theorem visLookup_visInsert_other (vis : List (LayerID × Bool)) (lid k : LayerID)
    (b : Bool) (h : k ≠ lid) :
    visLookup (visInsert vis lid b) k = visLookup vis k := by
  induction vis with
  | nil =>
    have h' : ¬(lid = k) := fun hh => h hh.symm
    simp [visInsert, visLookup, h']
  | cons p rest ih =>
    by_cases hp : p.1 = lid
    · subst hp
      have h' : ¬(p.1 = k) := fun hh => h hh.symm
      simp [visInsert, visLookup, h']
    · simp only [visInsert, hp, if_false, visLookup]
      by_cases hk : p.1 = k <;> simp [hk, ih]

theorem visLookup_layerMenuLoop_true (clicked : List LayerID)
    (layers : List (LayerID × Layer)) :
    ∀ (vis : List (LayerID × Bool)) (lid : LayerID), lid ∉ clicked →
      visLookup vis lid = some true →
      visLookup (layerMenuLoop clicked layers vis) lid = some true := by
  induction layers with
  | nil => intro vis lid _ hsome; exact hsome
  | cons pair rest ih =>
    intro vis lid hcl hsome
    rw [layerMenuLoop]
    by_cases h : pair.1 = lid
    · subst h
      refine ih _ _ hcl ?_
      unfold layerMenuStep
      rw [hsome]
      simp [hcl, visLookup_visInsert_self]
    · refine ih _ _ hcl ?_
      unfold layerMenuStep
      rw [visLookup_visInsert_other _ _ _ _ (fun hh => h hh.symm)]
      exact hsome

theorem visLookup_layerMenuLoop_insert (clicked : List LayerID)
    (layers : List (LayerID × Layer)) :
    ∀ (vis : List (LayerID × Bool)) (lid : LayerID),
      lid ∈ layers.map Prod.fst → lid ∉ clicked →
      visLookup vis lid = none →
      visLookup (layerMenuLoop clicked layers vis) lid = some true := by
  induction layers with
  | nil => intro vis lid hmem; simp at hmem
  | cons pair rest ih =>
    intro vis lid hmem hcl hnone
    rw [layerMenuLoop]
    by_cases h : pair.1 = lid
    · subst h
      refine visLookup_layerMenuLoop_true clicked rest _ _ hcl ?_
      unfold layerMenuStep
      rw [hnone]
      simp [hcl, visLookup_visInsert_self]
    · have hmem' : lid ∈ rest.map Prod.fst := by
        rw [List.map_cons] at hmem
        rcases List.mem_cons.mp hmem with h1 | h2
        · exact absurd h1.symm h
        · exact h2
      refine ih _ _ hmem' hcl ?_
      unfold layerMenuStep
      rw [visLookup_visInsert_other _ _ _ _ (fun hh => h hh.symm)]
      exact hnone

/-- Modelled from the spec: the `scale_non_uniform(sx, sy)` collaborator of
the document producer (not part of src/, which only contains its call
site).  It scales every point of every path of every layer by (sx, sy). -/
def FlattenedDocument.scale_non_uniform (d : FlattenedDocument) (sx sy : ℚ) :
    FlattenedDocument :=
  { layers := d.layers.map (fun pair =>
      (pair.1,
        { paths := pair.2.paths.map (fun path =>
            { path with data := path.data.map (fun pt => (sx * pt.1, sy * pt.2)) }) })) }

/-- Modelled from the spec: the source `Document` (not part of src/)
exposes an optional page size and a `flatten(tolerance)` collaborator
producing a `FlattenedDocument`; the flattening algorithm is unspecified,
so it is carried as an abstract function field. -/
structure Document where
  page_size : Option PageSize
  flatten : ℚ → FlattenedDocument

/-- The viewer built by `Document::show`'s app-creator closure: the
document is flattened at the given tolerance, scaled by (1, -1), and
handed with the extracted page size to `Viewer::new`. -/
def Document.showViewer (doc : Document) (tolerance : ℚ) : Viewer :=
  Viewer.new ((doc.flatten tolerance).scale_non_uniform 1 (-1)) doc.page_size

/-- Embeds `Document::show`: `eframe::run_native` (the host display
session, an external collaborator modelled as the `run_native` argument)
is invoked on the constructed viewer; its error is propagated by `?`, and
on success the call returns `Ok(())`. -/
def Document.show {ε : Type} (doc : Document) (tolerance : ℚ)
    (run_native : Viewer → Except ε Unit) : Except ε Unit :=
  match run_native (doc.showViewer tolerance) with
  | Except.error e => Except.error e
  | Except.ok _ => Except.ok ()

/-- Iterated per-frame updates (the host calls `update` once per frame). -/
def runFrames : List UIInput → Viewer → Viewer
  | [], v => v
  | input :: rest, v => runFrames rest (update input v).1

/-- A sample path used by the concrete witnesses. -/
def samplePath : Path :=
  { data := [(0, 0), (1, 2), (3, 4)], color := Color.fromRgb 0 0 255, stroke_width := 1 }

/-- A sample layer used by the concrete witnesses. -/
def sampleLayer : Layer := { paths := [samplePath] }

/-- A sample one-layer document used by the concrete witnesses. -/
def sampleDoc : FlattenedDocument := { layers := [(1, sampleLayer)] }

/-- A sample two-layer document used by the concrete witnesses. -/
def twoLayerDoc : FlattenedDocument := { layers := [(1, sampleLayer), (2, sampleLayer)] }

/-- Concrete viewer for the C1 witness. -/
def viewerC1 : Viewer :=
  { document := sampleDoc, page_size := some ⟨100, 50⟩, show_point := true,
    show_grid := false, layer_visibility := [] }

/-- Concrete viewer for the C2 witness: layer 2 explicitly hidden, layer 1
without an entry. -/
def viewerC2 : Viewer :=
  { document := twoLayerDoc, page_size := none, show_point := false,
    show_grid := false, layer_visibility := [(2, false)] }

/-- Concrete viewer for the C3 witness. -/
def viewerC3 : Viewer :=
  { document := sampleDoc, page_size := none, show_point := false,
    show_grid := true, layer_visibility := [] }

/-- Concrete viewer for the C4 witness. -/
def viewerC4 : Viewer :=
  { document := sampleDoc, page_size := none, show_point := false,
    show_grid := false, layer_visibility := [] }

/-- Concrete viewer for the C5 witness. -/
def viewerC5 : Viewer :=
  { document := sampleDoc, page_size := none, show_point := true,
    show_grid := true, layer_visibility := [(1, false)] }

/-- C1: when the page size is Some((w, h)) with w, h > 0, one frame's
canvas render emits exactly three page-frame polygon primitives, in this
order: a shadow polygon whose corners are the page rectangle corners
(0,0), (w,0), (w,-h), (0,-h) each offset by (+10, -10), gray RGB
180/180/180 with fill alpha 1; a background polygon with the unshifted
corners, white, fill alpha 1; and a frame polygon with the unshifted
corners, gray RGB 128/128/128 with fill alpha 0 — they sit in front of the
document primitives, which contain no polygon at all, so this count and
order are independent of layer content and of the show_point / show_grid
toggles (the theorem quantifies over every viewer state with that page
size). -/
theorem page_frame_three_polygons (v : Viewer) (w h : ℚ)
    (hps : v.page_size = some ⟨w, h⟩) (_hw : 0 < w) (_hh : 0 < h) :
    (renderCanvas v).primitives =
      Primitive.polygon [(10, -10), (w + 10, -10), (w + 10, -h - 10), (10, -h - 10)]
          (Color.fromRgb 180 180 180) 1 ::
        Primitive.polygon [(0, 0), (w, 0), (w, -h), (0, -h)] Color.white 1 ::
        Primitive.polygon [(0, 0), (w, 0), (w, -h), (0, -h)] (Color.fromRgb 128 128 128) 0 ::
        docPrimitives v
    ∧ (docPrimitives v).filter Primitive.isPolygon = [] := by
  constructor
  · rw [renderCanvas_primitives, hps]
    simp [pagePrimitives, SHADOW_OFFSET]
  · exact layersPrims_filter_polygon _ _ _

/-- Witness for C1 at page size (100, 50). -/
theorem page_frame_three_polygons_witness :
    (0 : ℚ) < 100 ∧ (0 : ℚ) < 50 ∧
      ((renderCanvas viewerC1).primitives =
        Primitive.polygon
            [(10, -10), ((100 : ℚ) + 10, -10), (100 + 10, -(50 : ℚ) - 10), (10, -50 - 10)]
            (Color.fromRgb 180 180 180) 1 ::
          Primitive.polygon [(0, 0), (100, 0), (100, -50), (0, -50)] Color.white 1 ::
          Primitive.polygon [(0, 0), (100, 0), (100, -50), (0, -50)]
            (Color.fromRgb 128 128 128) 0 ::
          docPrimitives viewerC1
      ∧ (docPrimitives viewerC1).filter Primitive.isPolygon = []) :=
  ⟨by norm_num, by norm_num,
    page_frame_three_polygons viewerC1 100 50 rfl (by norm_num) (by norm_num)⟩

/-- C5: when the page size is None, a frame's canvas render emits zero
page-frame primitives — its primitive list is exactly the document
primitives and contains no polygon — for every combination of toggles and
layer visibilities (quantified over every viewer state with page_size =
none). -/
theorem no_page_no_polygons (v : Viewer) (hps : v.page_size = none) :
    (renderCanvas v).primitives = docPrimitives v
    ∧ (renderCanvas v).primitives.filter Primitive.isPolygon = [] := by
  constructor
  · rw [renderCanvas_primitives, hps]
    simp [pagePrimitives]
  · rw [renderCanvas_primitives, hps]
    simp [pagePrimitives, docPrimitives, layersPrims_filter_polygon]

/-- Witness for C5 with both toggles on and a hidden layer. -/
theorem no_page_no_polygons_witness :
    (renderCanvas viewerC5).primitives = docPrimitives viewerC5
    ∧ (renderCanvas viewerC5).primitives.filter Primitive.isPolygon = [] :=
  no_page_no_polygons viewerC5 rfl

/-- C8: the viewer's document and page_size fields are unchanged by each
per-frame update call and by every sequence of update calls — only
show_point, show_grid and layer_visibility can change. -/
theorem update_preserves_document (inputs : List UIInput) (input : UIInput) (v : Viewer) :
    (update input v).1.document = v.document
    ∧ (update input v).1.page_size = v.page_size
    ∧ (runFrames inputs v).document = v.document
    ∧ (runFrames inputs v).page_size = v.page_size := by
  refine ⟨rfl, rfl, ?_, ?_⟩ <;>
    · induction inputs generalizing v with
      | nil => rfl
      | cons i rest ih => exact ih ((update i v).1)

/-- C9: immediately after Viewer::new both toggles are off and the
visibility map is empty, so the initial frame's canvas render has no point
markers, suppressed grid spacers on both axes (zero grid marks for any
host spacing), and every layer visible by the default-true policy. -/
theorem initial_viewer_state (d : FlattenedDocument) (ps : Option PageSize) :
    (Viewer.new d ps).show_point = false
    ∧ (Viewer.new d ps).show_grid = false
    ∧ (Viewer.new d ps).layer_visibility = []
    ∧ (renderCanvas (Viewer.new d ps)).primitives.filter Primitive.isPoints = []
    ∧ (∀ (host : GridInput → List GridMark) (input : GridInput),
        gridMarks (renderCanvas (Viewer.new d ps)).grid_x host input = []
        ∧ gridMarks (renderCanvas (Viewer.new d ps)).grid_y host input = [])
    ∧ (∀ lid : LayerID, layerVisible (Viewer.new d ps).layer_visibility lid = true) := by
  refine ⟨rfl, rfl, rfl, ?_, ?_, fun lid => rfl⟩
  · rw [renderCanvas_primitives, List.filter_append, pagePrimitives_filter_points]
    exact layersPrims_false_filter_points _ _
  · intro host input
    constructor <;>
      simp [renderCanvas_grid_x, renderCanvas_grid_y, Viewer.new, gridMarks]

/-- C2: a frame's canvas render emits a layer's primitives if and only if
that layer's visibility entry is not explicitly false: the rendered
primitive list equals the page primitives followed by the primitives of
exactly the layers passing the visibility filter, a layer with no entry is
visible (default-true), and a layer is invisible precisely when its entry
is literally `some false`. -/
theorem layer_visibility_default_true (v : Viewer) :
    (renderCanvas v).primitives =
      pagePrimitives v.page_size ++
        layersPrims v.show_point v.layer_visibility
          (v.document.layers.filter (fun pair => layerVisible v.layer_visibility pair.1))
    ∧ (∀ lid : LayerID, visLookup v.layer_visibility lid = none →
        layerVisible v.layer_visibility lid = true)
    ∧ (∀ lid : LayerID, layerVisible v.layer_visibility lid = false ↔
        visLookup v.layer_visibility lid = some false) := by
  refine ⟨?_, ?_, ?_⟩
  · rw [renderCanvas_primitives, docPrimitives, layersPrims_eq_filter]
  · intro lid hnone
    simp [layerVisible, hnone]
  · intro lid
    unfold layerVisible
    cases h : visLookup v.layer_visibility lid with
    | none => simp
    | some b => cases b <;> simp

/-- Witness for C2: layer 1 has no entry and is visible, layer 2's entry
is false, and the frame renders exactly the filtered layers. -/
theorem layer_visibility_default_true_witness :
    (renderCanvas viewerC2).primitives =
      pagePrimitives viewerC2.page_size ++
        layersPrims viewerC2.show_point viewerC2.layer_visibility
          (viewerC2.document.layers.filter
            (fun pair => layerVisible viewerC2.layer_visibility pair.1))
    ∧ layerVisible viewerC2.layer_visibility 1 = true
    ∧ (layerVisible viewerC2.layer_visibility 2 = false ↔
        visLookup viewerC2.layer_visibility 2 = some false) :=
  ⟨(layer_visibility_default_true viewerC2).1,
    (layer_visibility_default_true viewerC2).2.1 1 rfl,
    (layer_visibility_default_true viewerC2).2.2 2⟩

/-- C3: with show_point set, the frame's marker primitives are exactly one
points primitive per visible path, in the path's color with radius
stroke_width * 2, and the total number of markers drawn is the total
number of points of the visible paths (one marker per point); with
show_point unset there are no marker primitives; the polyline primitives
are identical in both cases; and setting show_point to true and then back
to false restores the previous frame output exactly. -/
theorem show_point_round_trip (v : Viewer) :
    ((renderCanvas { v with show_point := true }).primitives.filter Primitive.isPoints =
        (visiblePaths v.layer_visibility v.document.layers).map markerOf)
    ∧ markerCount (renderCanvas { v with show_point := true }).primitives =
        totalPoints (visiblePaths v.layer_visibility v.document.layers)
    ∧ (renderCanvas { v with show_point := false }).primitives.filter Primitive.isPoints = []
    ∧ (renderCanvas { v with show_point := true }).primitives.filter Primitive.isLine =
        (renderCanvas { v with show_point := false }).primitives.filter Primitive.isLine
    ∧ (v.show_point = false →
        renderCanvas { { v with show_point := true } with show_point := false } =
          renderCanvas v) := by
  refine ⟨?_, ?_, ?_, ?_, ?_⟩
  · rw [renderCanvas_primitives, List.filter_append, pagePrimitives_filter_points]
    exact layersPrims_true_filter_points _ _
  · rw [renderCanvas_primitives, markerCount_append, markerCount_pagePrimitives]
    rw [Nat.zero_add]
    exact markerCount_layersPrims_true _ _
  · rw [renderCanvas_primitives, List.filter_append, pagePrimitives_filter_points]
    exact layersPrims_false_filter_points _ _
  · rw [renderCanvas_primitives, renderCanvas_primitives, List.filter_append,
      List.filter_append, pagePrimitives_filter_line]
    rw [show docPrimitives { v with show_point := true } =
        layersPrims true v.layer_visibility v.document.layers from rfl,
      show docPrimitives { v with show_point := false } =
        layersPrims false v.layer_visibility v.document.layers from rfl,
      layersPrims_filter_line, layersPrims_filter_line]
  · intro h
    cases v
    simp only at h
    subst h
    rfl

/-- Witness for C3: markers on a concrete document and the round trip at a
concrete viewer whose show_point is off. -/
theorem show_point_round_trip_witness :
    ((renderCanvas { viewerC3 with show_point := true }).primitives.filter
        Primitive.isPoints =
      (visiblePaths viewerC3.layer_visibility viewerC3.document.layers).map markerOf)
    ∧ renderCanvas { { viewerC3 with show_point := true } with show_point := false } =
        renderCanvas viewerC3 :=
  ⟨(show_point_round_trip viewerC3).1,
    (show_point_round_trip viewerC3).2.2.2.2 rfl⟩

/-- C4: when show_grid is false both grid spacers are the installed
empty-vec closures and produce zero grid marks for every host default and
every spacer input; when show_grid is true both spacers defer to the host
default; the grid output of a frame depends only on the current value of
show_grid; and setting show_grid to the same value twice yields the same
frame output as setting it once (idempotence). -/
theorem show_grid_suppression (v : Viewer) :
    (v.show_grid = false →
      ∀ (host : GridInput → List GridMark) (input : GridInput),
        gridMarks (renderCanvas v).grid_x host input = []
        ∧ gridMarks (renderCanvas v).grid_y host input = [])
    ∧ (v.show_grid = true →
      ∀ (host : GridInput → List GridMark) (input : GridInput),
        gridMarks (renderCanvas v).grid_x host input = host input
        ∧ gridMarks (renderCanvas v).grid_y host input = host input)
    ∧ (∀ v₂ : Viewer, v.show_grid = v₂.show_grid →
        (renderCanvas v).grid_x = (renderCanvas v₂).grid_x
        ∧ (renderCanvas v).grid_y = (renderCanvas v₂).grid_y)
    ∧ (∀ b : Bool,
        renderCanvas { { v with show_grid := b } with show_grid := b } =
          renderCanvas { v with show_grid := b }) := by
  refine ⟨?_, ?_, ?_, fun b => rfl⟩
  · intro h host input
    constructor <;> simp [renderCanvas_grid_x, renderCanvas_grid_y, h, gridMarks]
  · intro h host input
    constructor <;> simp [renderCanvas_grid_x, renderCanvas_grid_y, h, gridMarks]
  · intro v₂ h
    constructor <;> simp [renderCanvas_grid_x, renderCanvas_grid_y, h]

/-- A sample host grid spacer used by the C4 witness. -/
def hostSpacing : GridInput → List GridMark :=
  fun input => [{ value := 0, step_size := input.base_step_size }]

/-- A sample grid spacer input used by the C4 witness. -/
def gridInputSample : GridInput := { bounds := (0, 100), base_step_size := 10 }

/-- Witness for C4: suppressed grid at a concrete viewer with show_grid
off, and host-default grid once the toggle is on. -/
theorem show_grid_suppression_witness :
    (gridMarks (renderCanvas viewerC4).grid_x hostSpacing gridInputSample = []
      ∧ gridMarks (renderCanvas viewerC4).grid_y hostSpacing gridInputSample = [])
    ∧ gridMarks (renderCanvas { viewerC4 with show_grid := true }).grid_x hostSpacing
        gridInputSample = hostSpacing gridInputSample :=
  ⟨(show_grid_suppression viewerC4).1 rfl hostSpacing gridInputSample,
    ((show_grid_suppression { viewerC4 with show_grid := true }).2.1 rfl hostSpacing
      gridInputSample).1⟩

/-- C6: Document::show hands to the newly constructed Viewer exactly the
document obtained by flattening the source at the given tolerance and
scaling it by (1, -1), together with the page size extracted from the
source; and scale_non_uniform(1, -1) is a vertical flip with no horizontal
change, sending every point (x, y) of every path to (x, -y). -/
theorem show_flatten_flip (doc : Document) (tolerance : ℚ) :
    doc.showViewer tolerance =
      Viewer.new ((doc.flatten tolerance).scale_non_uniform 1 (-1)) doc.page_size
    ∧ (doc.showViewer tolerance).document =
        (doc.flatten tolerance).scale_non_uniform 1 (-1)
    ∧ (doc.showViewer tolerance).page_size = doc.page_size
    ∧ (∀ fd : FlattenedDocument,
        fd.scale_non_uniform 1 (-1) =
          { layers := fd.layers.map (fun pair =>
              (pair.1,
                { paths := pair.2.paths.map (fun path =>
                    { path with data := path.data.map (fun pt => (pt.1, -pt.2)) }) })) }) := by
  refine ⟨rfl, rfl, rfl, ?_⟩
  intro fd
  unfold FlattenedDocument.scale_non_uniform
  have hfun : (fun pt : ℚ × ℚ => ((1 : ℚ) * pt.1, (-1 : ℚ) * pt.2)) =
      fun pt : ℚ × ℚ => (pt.1, -pt.2) := by
    funext pt
    simp

  rw [hfun]

/-- C7: Document::show has one fallible boundary, the display session: it
returns the error of run_native unchanged when the session fails, returns
Ok(()) exactly when the session succeeds (after blocking until the window
closes), and the per-frame update is a total function — every frame yields
a state and an output, never an error. -/
theorem show_error_boundary {ε : Type} (doc : Document) (tolerance : ℚ)
    (run_native : Viewer → Except ε Unit) :
    (∀ e : ε, doc.show tolerance run_native = Except.error e ↔
        run_native (doc.showViewer tolerance) = Except.error e)
    ∧ (doc.show tolerance run_native = Except.ok () ↔
        ∃ u : Unit, run_native (doc.showViewer tolerance) = Except.ok u)
    ∧ (∀ (input : UIInput) (v : Viewer),
        update input v =
          (menuUpdate input v, input.quit_clicked, renderCanvas (menuUpdate input v))) := by
  refine ⟨?_, ?_, fun input v => rfl⟩
  · intro e
    unfold Document.show
    cases h : run_native (doc.showViewer tolerance) with
    | error e₂ => simp
    | ok u => simp
  · unfold Document.show
    cases h : run_native (doc.showViewer tolerance) with
    | error e₂ => simp [h]
    | ok u => simp [h]

/-- A display session that always succeeds, for the C7 witness. -/
def runOk : Viewer → Except String Unit := fun _ => Except.ok ()

/-- A display session that always fails at startup, for the C7 witness. -/
def runFail : Viewer → Except String Unit := fun _ => Except.error "window creation failed"

/-- A sample source document for the C6/C7 witnesses. -/
def docSample : Document := { page_size := some ⟨100, 50⟩, flatten := fun _ => sampleDoc }

/-- Witness for C7: a failing session's error is returned as is, and a
successful session yields Ok(()). -/
theorem show_error_boundary_witness :
    (docSample.show 1 runFail = Except.error "window creation failed" ↔
        runFail (docSample.showViewer 1) = Except.error "window creation failed")
    ∧ (docSample.show 1 runOk = Except.ok () ↔
        ∃ u : Unit, runOk (docSample.showViewer 1) = Except.ok u) :=
  ⟨(show_error_boundary docSample 1 runFail).1 "window creation failed",
    (show_error_boundary docSample 1 runOk).2.1⟩

/-- C10: every key of the visibility map stays a key of the document's
layer mapping across an update (entries are inserted only while iterating
the document's layer keys in the Layer menu), no entry is ever removed,
the map starts out empty at construction, and a fresh entry inserted for
an unclicked document layer holds the default value true. -/
theorem visibility_keys_invariant (input : UIInput) (v : Viewer)
    (hinv : ∀ k ∈ visKeys v.layer_visibility, k ∈ docIDs v.document) :
    (∀ k ∈ visKeys (update input v).1.layer_visibility,
        k ∈ docIDs (update input v).1.document)
    ∧ (∀ k ∈ visKeys v.layer_visibility,
        k ∈ visKeys (update input v).1.layer_visibility)
    ∧ (∀ (d : FlattenedDocument) (ps : Option PageSize),
        visKeys (Viewer.new d ps).layer_visibility = [])
    ∧ (∀ lid : LayerID, input.layer_menu_open = true → lid ∈ docIDs v.document →
        visLookup v.layer_visibility lid = none → lid ∉ input.layer_clicked →
        visLookup (update input v).1.layer_visibility lid = some true) := by
  have hupd : (update input v).1.layer_visibility =
      if input.layer_menu_open then
        layerMenuLoop input.layer_clicked v.document.layers v.layer_visibility
      else v.layer_visibility := rfl
  have hdoc : (update input v).1.document = v.document := rfl
  refine ⟨?_, ?_, fun d ps => rfl, ?_⟩
  · intro k hk
    rw [hdoc]
    rw [hupd] at hk
    by_cases hm : input.layer_menu_open
    · rw [if_pos hm] at hk
      rcases (visKeys_layerMenuLoop input.layer_clicked v.document.layers
        v.layer_visibility k).mp hk with h1 | h2
      · exact hinv k h1
      · exact h2
    · rw [if_neg hm] at hk
      exact hinv k hk
  · intro k hk
    rw [hupd]
    by_cases hm : input.layer_menu_open
    · rw [if_pos hm]
      exact (visKeys_layerMenuLoop input.layer_clicked v.document.layers
        v.layer_visibility k).mpr (Or.inl hk)
    · rw [if_neg hm]
      exact hk
  · intro lid hopen hmem hnone hcl
    rw [hupd, if_pos hopen]
    exact visLookup_layerMenuLoop_insert input.layer_clicked v.document.layers
      v.layer_visibility lid hmem hcl hnone

/-- The UI interaction used by the C10 witness: the Layer menu is open and
no checkbox is clicked. -/
def inputC10 : UIInput :=
  { quit_clicked := false, show_point_clicked := false, show_grid_clicked := false,
    layer_menu_open := true, layer_clicked := [] }

/-- The freshly constructed viewer used by the C10 witness. -/
def viewerC10 : Viewer := Viewer.new twoLayerDoc none

/-- Witness for C10 at a fresh two-layer viewer whose Layer menu is opened
once: the invariant holds afterwards, and both layers received a
default-true entry. -/
theorem visibility_keys_invariant_witness :
    (∀ k ∈ visKeys (update inputC10 viewerC10).1.layer_visibility,
        k ∈ docIDs (update inputC10 viewerC10).1.document)
    ∧ visLookup (update inputC10 viewerC10).1.layer_visibility 1 = some true
    ∧ visLookup (update inputC10 viewerC10).1.layer_visibility 2 = some true :=
  ⟨(visibility_keys_invariant inputC10 viewerC10 (by simp [visKeys, viewerC10, Viewer.new])).1,
    (visibility_keys_invariant inputC10 viewerC10 (by simp [visKeys, viewerC10, Viewer.new])).2.2.2 1
      rfl (by simp [docIDs, twoLayerDoc, viewerC10, Viewer.new]) rfl (by simp [inputC10]),
    (visibility_keys_invariant inputC10 viewerC10 (by simp [visKeys, viewerC10, Viewer.new])).2.2.2 2
      rfl (by simp [docIDs, twoLayerDoc, viewerC10, Viewer.new]) rfl (by simp [inputC10])⟩

end VSVG
